import Mathlib

/-!
Verification of the incremental export engine of `aurora-snowflake-sync`.

This file gives a shallow embedding, in Lean 4, of the Python modules
`src/lambda/src/exceptions.py`, `src/lambda/src/watermark.py`,
`src/lambda/src/extractor.py`, `src/lambda/src/writer.py` and
`src/lambda/src/handler.py`, and proves (or refutes) the frozen claims
about them.

Modelling conventions:
* timestamps (Python `datetime` values) are modelled as `Nat`; the Python
  comparison and equality operators on timezone-aware datetimes become the
  order and equality of `Nat`, and `isoformat` is the identity embedding
  (its injectivity on the modelled values is that of `Nat`);
* a DynamoDB table is an association list from key to record, where a
  conditional `put_item` evaluates its condition against the current list;
* I/O faults (a `ClientError` from DynamoDB, a `psycopg2` error, an S3
  upload failure, the message of a raised exception) are injected
  explicitly as `Option String` parameters: `none` means the call
  succeeded at the transport level, `some code` means the client raised
  an error with that code/message;
* Python exceptions become the `CDCError` inductive type, one constructor
  per exception class of `exceptions.py`, carrying the message;
* a run of the Lambda handler is a pure function of its inputs plus an
  explicit environment describing what the external systems would answer.
-/

namespace CDC

/-- Error taxonomy of `src/lambda/src/exceptions.py`: one constructor per
exception class deriving from `CDCExportError`, carrying the message. -/
inductive CDCError where
  | watermarkError (msg : String)
  | extractionError (msg : String)
  | writerError (msg : String)
  | configurationError (msg : String)
  | timeoutApproachingError (msg : String)
deriving DecidableEq, Repr

/-- The Python class of an error, forgetting the message.  Two errors are
"distinguishable as error types" exactly when their classes differ. -/
inductive ErrClass where
  | watermark
  | extraction
  | writer
  | configuration
  | timeoutApproaching
deriving DecidableEq, Repr

/-- Class (Python exception type) of a `CDCError`. -/
def CDCError.cls : CDCError → ErrClass
  | .watermarkError _ => .watermark
  | .extractionError _ => .extraction
  | .writerError _ => .writer
  | .configurationError _ => .configuration
  | .timeoutApproachingError _ => .timeoutApproaching

/-- Message carried by a `CDCError`. -/
def CDCError.msg : CDCError → String
  | .watermarkError m => m
  | .extractionError m => m
  | .writerError m => m
  | .configurationError m => m
  | .timeoutApproachingError m => m

/-- One DynamoDB watermark record, the item written by
`WatermarkManager.update_watermark` (watermark.py, lines 80-87).
`watermark` and `updated_at` are modelled timestamps; `duration_seconds`
is kept as an opaque `Nat`. -/
structure WatermarkRecord where
  watermark : Nat
  rows_exported : Nat
  execution_id : String
  duration_seconds : Nat
  updated_at : Nat
deriving DecidableEq, Repr

/-- The DynamoDB watermark table: an association list keyed by
`table_name`. -/
abbrev Store := List (String × WatermarkRecord)

/-- Point read of the record stored under a key. -/
def lookupStore (s : Store) (k : String) : Option WatermarkRecord :=
  match s.find? (fun p => p.1 == k) with
  | some p => some p.2
  | none => none

/-- DynamoDB `put_item`: unconditional replacement of the item under the
key. -/
def insertStore (s : Store) (k : String) (v : WatermarkRecord) : Store :=
  (k, v) :: s.filter (fun p => p.1 != k)

/-- The two condition expressions used by `update_watermark`
(watermark.py, lines 95 and 103). -/
inductive PutCondition where
  | attributeNotExists
  | watermarkEquals (prev : Nat)
deriving DecidableEq, Repr

/-- DynamoDB evaluation of a `ConditionExpression` against the current
item under the key: `attribute_not_exists(table_name)` holds exactly when
no item exists; `watermark = :prev` holds exactly when an item exists and
its `watermark` attribute equals `:prev` (on a missing item the attribute
comparison does not hold). -/
def evalCondition (s : Store) (k : String) : PutCondition → Bool
  | .attributeNotExists => (lookupStore s k).isNone
  | .watermarkEquals prev =>
    match lookupStore s k with
    | some r => r.watermark == prev
    | none => false

/-- A `botocore` `ClientError`, reduced to its error code. -/
structure ClientErr where
  code : String
deriving DecidableEq, Repr

/-- Conditional `put_item` call.  `fault` injects a transport-level
`ClientError` (network failure, throttle, ...); otherwise the condition is
evaluated and its failure surfaces as the `ConditionalCheckFailedException`
error code, exactly as DynamoDB reports it. -/
def putItem (s : Store) (k : String) (v : WatermarkRecord)
    (cond : PutCondition) (fault : Option String) : Except ClientErr Store :=
  match fault with
  | some code => .error ⟨code⟩
  | none =>
    if evalCondition s k cond then .ok (insertStore s k v)
    else .error ⟨"ConditionalCheckFailedException"⟩

/-- `WatermarkManager.get_watermark` (watermark.py, lines 29-56): a
consistent read returning the stored watermark, `none` when no record
exists; a `ClientError` is wrapped as `WatermarkError`. -/
def get_watermark (s : Store) (table_name : String) (fault : Option String) :
    Except CDCError (Option Nat) :=
  match fault with
  | some code => .error (.watermarkError ("Failed to get watermark: " ++ code))
  | none => .ok ((lookupStore s table_name).map WatermarkRecord.watermark)

/-- The condition expression `update_watermark` attaches to its put: with
no expected previous watermark, `attribute_not_exists(table_name)`
(watermark.py, line 95); otherwise `watermark = :prev` (line 103). -/
def commitCondition : Option Nat → PutCondition
  | none => .attributeNotExists
  | some prev => .watermarkEquals prev

/-- `WatermarkManager.update_watermark` (watermark.py, lines 58-120): a
single conditional write.  With `previous_watermark = none` the condition
is `attribute_not_exists(table_name)`; otherwise `watermark = :prev`.  A
`ConditionalCheckFailedException` is re-raised as a `WatermarkError` whose
message starts with "Concurrent modification detected"; any other
`ClientError` is re-raised as a `WatermarkError` whose message starts with
"Failed to update watermark". -/
def update_watermark (s : Store) (table_name : String) (new_watermark : Nat)
    (rows_exported : Nat) (execution_id : String) (duration_seconds : Nat)
    (previous_watermark : Option Nat) (now : Nat) (fault : Option String) :
    Except CDCError Store :=
  let item : WatermarkRecord :=
    { watermark := new_watermark, rows_exported := rows_exported,
      execution_id := execution_id, duration_seconds := duration_seconds,
      updated_at := now }
  match putItem s table_name item (commitCondition previous_watermark) fault with
  | .ok s' => .ok s'
  | .error e =>
    if e.code == "ConditionalCheckFailedException" then
      .error (.watermarkError
        ("Concurrent modification detected for " ++ table_name ++
         ". Another Lambda may have updated the watermark."))
    else
      .error (.watermarkError ("Failed to update watermark: " ++ e.code))

/-- Per-table extraction configuration (`TableConfig` in config.py),
restricted to the fields `build_query` and `extract_batches` read. -/
structure TableConfigM where
  source_columns : List String
  watermark_column : String
  created_at_column : Option String
  batch_size : Nat
deriving DecidableEq, Repr

/-- A source row: an association list from column name to value, with
timestamps (and every other value the engine compares) modelled as `Nat`.
A column absent from the list is SQL `NULL`. -/
abbrev Row := List (String × Nat)

/-- Value of a column in a row, `none` for `NULL`/absent. -/
def rowGet (r : Row) (c : String) : Option Nat :=
  match r.find? (fun p => p.1 == c) with
  | some p => some p.2
  | none => none

/-- Op classification, the `op` column of the extraction query. -/
inductive Op where
  | I
  | U
deriving DecidableEq, Repr

/-- The `op` select expression of `build_query` (extractor.py, lines
131-139 and 144): the literal `'I'`, the literal `'U'`, or the SQL
`CASE WHEN created_col = wm_col THEN 'I' ELSE 'U' END`. -/
inductive OpExpr where
  | litI
  | litU
  | caseCreatedEq (created wm : String)
deriving DecidableEq, Repr

/-- SQL evaluation of an op expression on a row.  SQL equality involving a
`NULL` operand is not true, so the `CASE` falls through to `'U'`. -/
def evalOpExpr : OpExpr → Row → Op
  | .litI, _ => .I
  | .litU, _ => .U
  | .caseCreatedEq c w, r =>
    match rowGet r c, rowGet r w with
    | some a, some b => if a = b then .I else .U
    | _, _ => .U

/-- The query built by `DataExtractor.build_query`, as structured data:
the selected source columns, the watermark column (aliased `commit_ts`),
the op select expression, the optional `WHERE wm_col > :watermark`
filter, and the `ORDER BY` column. -/
structure BuiltQuery where
  columns : List String
  wm_col : String
  op_expr : OpExpr
  filter_gt : Option Nat
  order_by : String
deriving DecidableEq, Repr

/-- `DataExtractor.build_query` (extractor.py, lines 116-159).  With no
watermark: full scan, op literally `'I'`, ordered by the watermark
column.  With a watermark: scan filtered by `wm_col > watermark`, ordered
by the watermark column, op from the `CASE` on the created-at column when
one is configured, else literally `'U'`. -/
def build_query (tc : TableConfigM) (watermark : Option Nat) : BuiltQuery :=
  let op_expr : OpExpr :=
    match tc.created_at_column with
    | some c => .caseCreatedEq c tc.watermark_column
    | none => .litU
  match watermark with
  | none =>
    { columns := tc.source_columns, wm_col := tc.watermark_column,
      op_expr := .litI, filter_gt := none,
      order_by := tc.watermark_column }
  | some w =>
    { columns := tc.source_columns, wm_col := tc.watermark_column,
      op_expr := op_expr, filter_gt := some w,
      order_by := tc.watermark_column }

/-- A result row of the extraction query: the source row, its
`commit_ts` alias (the watermark column value) and its `op` column. -/
structure QRow where
  row : Row
  commit_ts : Option Nat
  op : Op
deriving DecidableEq, Repr

/-- Whether a row passes the `wm_col > :watermark` predicate; a `NULL`
watermark column never passes. -/
def rowPasses (wm_col : String) (w : Nat) (r : Row) : Bool :=
  match rowGet r wm_col with
  | some v => w < v
  | none => false

/-- PostgreSQL default ascending sort order on the watermark column:
non-`NULL` values ascending, `NULL`s last. -/
def sqlAscLe : Option Nat → Option Nat → Bool
  | some a, some b => a ≤ b
  | some _, none => true
  | none, some _ => false
  | none, none => true

/-- Semantics of a built query over the source table's rows: apply the
`WHERE` filter, sort by the `ORDER BY` column ascending, and evaluate the
select list (`commit_ts` alias and `op` expression) on each row. -/
def runQuery (q : BuiltQuery) (tbl : List Row) : List QRow :=
  let filtered : List Row :=
    match q.filter_gt with
    | none => tbl
    | some w => tbl.filter (rowPasses q.wm_col w)
  let sorted := filtered.mergeSort
    (fun a b => sqlAscLe (rowGet a q.order_by) (rowGet b q.order_by))
  sorted.map (fun r =>
    { row := r, commit_ts := rowGet r q.wm_col, op := evalOpExpr q.op_expr r })

/-- Decimal digit as a character: `0 ↦ '0'`, ..., `9 ↦ '9'`. -/
def digitChar (d : Nat) : Char := Char.ofNat (48 + d)

/-- Decimal representation of a natural number as characters, most
significant digit first (empty for `0`, as `Nat.digits`; the zero case is
covered by the padding below, matching Python's `%04d` which renders `0`
as `0000`). -/
def natChars (n : Nat) : List Char := ((Nat.digits 10 n).map digitChar).reverse

/-- Characters of Python's zero-padded decimal format `%04d`. -/
def pad4Chars (n : Nat) : List Char :=
  List.replicate (4 - (natChars n).length) '0' ++ natChars n

/-- Python's `%04d` format of the batch counter. -/
def pad4 (n : Nat) : String := ⟨pad4Chars n⟩

/-- The fixed parts of the S3 key of `S3ParquetWriter._generate_key`
(writer.py, lines 43-57): the configured S3 path start (field named
`prefix` in `S3Config`, renamed here), the source schema and the source
table. -/
structure KeyConfig where
  path_base : String
  source_schema : String
  source_table : String
deriving DecidableEq, Repr

/-- `S3ParquetWriter._generate_key` (writer.py, lines 43-57) with the
counter passed explicitly: renders
`path_base/source_schema/source_table/LOAD<ts>_<execution_id>_<counter %04d>.parquet`. -/
def generate_key (kc : KeyConfig) (execution_id : String) (ts_str : String)
    (counter : Nat) : String :=
  kc.path_base ++ "/" ++ kc.source_schema ++ "/" ++ kc.source_table ++
    "/LOAD" ++ ts_str ++ "_" ++ execution_id ++ "_" ++ pad4 counter ++
    ".parquet"

/-- Mutable state of an `S3ParquetWriter` instance: its batch counter. -/
structure WriterState where
  batch_counter : Nat
deriving DecidableEq, Repr

/-- `S3ParquetWriter.write_batch` (writer.py, lines 82-142).  An empty
batch is skipped and returns the empty key without touching the counter.
Otherwise `_generate_key` increments the counter (before any conversion
or upload), and the conversion/upload either succeeds, returning the key,
or fails (injected by `fault`), raising a `WriterError` — with the
counter already incremented either way. -/
def write_batch (kc : KeyConfig) (execution_id : String) (w : WriterState)
    (rows : List Row) (ts_str : String) (fault : Option String) :
    Except CDCError String × WriterState :=
  if rows.isEmpty then (.ok "", w)
  else
    let w' : WriterState := { batch_counter := w.batch_counter + 1 }
    let key := generate_key kc execution_id ts_str w'.batch_counter
    match fault with
    | some m => (.error (.writerError ("Failed to write batch to S3: " ++ m)), w')
    | none => (.ok key, w')

/-- `S3ParquetWriter.get_written_files` (writer.py, lines 144-146):
returns the batch counter. -/
def get_written_files (w : WriterState) : Nat := w.batch_counter

/-- One `write_batch` invocation on a writer instance: the rows, the
timestamp used for the key, and an injected upload/conversion fault. -/
structure WriteCall where
  rows : List Row
  ts_str : String
  fault : Option String

instance {ε α : Type} [DecidableEq ε] [DecidableEq α] :
    DecidableEq (Except ε α)
  | .ok a, .ok b =>
    if h : a = b then .isTrue (by rw [h]) else .isFalse (by simp [h])
  | .ok _, .error _ => .isFalse (by simp)
  | .error _, .ok _ => .isFalse (by simp)
  | .error a, .error b =>
    if h : a = b then .isTrue (by rw [h]) else .isFalse (by simp [h])

/-- Outcome of one `write_batch` invocation: the returned key or raised
error, the counter value after the call, and whether the call was the
empty-input no-op. -/
structure WriteOutcome where
  result : Except CDCError String
  counter_after : Nat
  rows_empty : Bool
deriving DecidableEq, Repr

/-- A sequence of `write_batch` invocations on one writer instance,
returning the final state and the per-call outcomes in order. -/
def runWriter (kc : KeyConfig) (execution_id : String) (w : WriterState) :
    List WriteCall → WriterState × List WriteOutcome
  | [] => (w, [])
  | c :: cs =>
    let (r, w') := write_batch kc execution_id w c.rows c.ts_str c.fault
    let (wf, rs) := runWriter kc execution_id w' cs
    (wf, ⟨r, w'.batch_counter, c.rows.isEmpty⟩ :: rs)

/-- The successful file writes of a call sequence: the key returned and
the counter embedded in it, one entry per non-empty call whose
conversion and upload succeeded. -/
def okFileWrites (outs : List WriteOutcome) : List (String × Nat) :=
  outs.filterMap (fun o =>
    match o.result with
    | .ok k => if o.rows_empty then none else some (k, o.counter_after)
    | .error _ => none)

/-- `check_timeout` (handler.py, lines 81-95).  The remaining-time signal
is the context's `get_remaining_time_in_millis`, modelled as a function
of the call index (the handler calls it once per loop iteration); no
context means never time out. -/
def check_timeout (ctx : Option (Nat → Nat)) (callIdx : Nat)
    (buffer_seconds : Nat) : Bool :=
  match ctx with
  | none => false
  | some remaining => remaining callIdx < buffer_seconds * 1000

/-- The running-maximum update of the handler loop (handler.py, lines
183-185): replace the running maximum by the batch maximum only when the
batch maximum is non-`None` and strictly larger (or there is no running
maximum yet). -/
def updateMax (batch_max_wm : Option Nat) (max_watermark : Option Nat) :
    Option Nat :=
  match batch_max_wm with
  | none => max_watermark
  | some b =>
    match max_watermark with
    | none => some b
    | some m => if b > m then some b else max_watermark

/-- A field value of the handler's result body.  `new_watermark` is an
ISO-8601 string or `None` in the source; it is modelled as the optional
timestamp it renders (`isoformat` being the identity embedding). -/
inductive FieldVal where
  | str (s : String)
  | nat (n : Nat)
  | bool (b : Bool)
  | wm (w : Option Nat)
deriving DecidableEq, Repr

/-- A handler result: the `statusCode` and the `body` dictionary, as an
ordered list of field name/value pairs. -/
structure HandlerOutput where
  statusCode : Nat
  body : List (String × FieldVal)
deriving DecidableEq, Repr

/-- The invocation event fields the handler reads (handler.py, lines
120-124).  A missing or empty `table_name` is modelled as `""` (the
source checks falsiness). -/
structure Event where
  table_name : String
  force_full_load : Bool
deriving DecidableEq, Repr

/-- The configuration the handler run uses after `build_config`: the
effective dry-run flag, the timeout buffer, and the writer's key
configuration. -/
structure ConfigM where
  dry_run : Bool
  timeout_buffer_seconds : Nat
  keyCfg : KeyConfig
deriving DecidableEq, Repr

/-- Environment of one handler run: what every external system would
answer.  `row_count` and `batches` are functions of the watermark the
run resolves (the source passes the resolved watermark to
`get_row_count` and `extract_batches`); `batches` yields the batch/max
pairs the generator produces plus an optional error the generator raises
after the last yielded batch; `writeTs`/`writeFault` are indexed by the
writer's counter before the call; `duration` and `now` are the measured
run duration and the commit's `updated_at` timestamp. -/
structure HandlerEnv where
  store : Store
  getFault : Option String
  row_count : Option Nat → Nat
  countFault : Option String
  batches : Option Nat → List (List Row × Option Nat) × Option String
  writeTs : Nat → String
  writeFault : Nat → Option String
  commitFault : Option String
  ctx : Option (Nat → Nat)
  duration : Nat
  now : Nat

/-- State of the handler's export loop (handler.py, lines 160-187),
together with the trace of `write_batch` calls performed. -/
structure LoopState where
  total_rows : Nat
  max_watermark : Option Nat
  timeout_reached : Bool
  writer : WriterState
  writes : List (List Row)
deriving DecidableEq, Repr

/-- One `update_watermark` invocation by the handler, with its
arguments. -/
structure CommitCall where
  table_name : String
  new_watermark : Nat
  rows_exported : Nat
  execution_id : String
  duration_seconds : Nat
  previous_watermark : Option Nat
deriving DecidableEq, Repr

/-- Everything observable about one handler run: the returned value or
raised error, the `write_batch` calls, the `update_watermark` calls, the
final watermark store, and the final writer state. -/
structure RunResult where
  output : Except CDCError HandlerOutput
  writeCalls : List (List Row)
  commitCalls : List CommitCall
  finalStore : Store
  writer : WriterState
deriving Repr

/-- The handler's export loop (handler.py, lines 165-187): for each
yielded batch, first check the timeout (breaking with `timeout_reached`
set, without touching the in-hand batch), then write the batch (skipped
on dry run; a write failure aborts with the `WriterError`, the rows of
the failed batch not counted), then add the batch's length to
`total_rows` and fold its maximum watermark into the running maximum. -/
def runLoop (cfg : ConfigM) (env : HandlerEnv) (execution_id : String) :
    List (List Row × Option Nat) → Nat → LoopState →
    LoopState × Option CDCError
  | [], _, st => (st, none)
  | (batch, batch_max_wm) :: rest, i, st =>
    if check_timeout env.ctx i cfg.timeout_buffer_seconds then
      ({ st with timeout_reached := true }, none)
    else
      if cfg.dry_run then
        runLoop cfg env execution_id rest (i + 1)
          { st with total_rows := st.total_rows + batch.length,
                    max_watermark := updateMax batch_max_wm st.max_watermark }
      else
        match write_batch cfg.keyCfg execution_id st.writer batch
            (env.writeTs st.writer.batch_counter)
            (env.writeFault st.writer.batch_counter) with
        | (.error e, w') =>
          ({ st with writer := w', writes := st.writes ++ [batch] }, some e)
        | (.ok _, w') =>
          runLoop cfg env execution_id rest (i + 1)
            { st with writer := w', writes := st.writes ++ [batch],
                      total_rows := st.total_rows + batch.length,
                      max_watermark := updateMax batch_max_wm st.max_watermark }

/-- Watermark resolution (handler.py, lines 136-142): with
`force_full_load` both the starting and the expected-previous watermark
are `None` without reading the store; otherwise both are the stored
watermark. -/
def resolveWatermark (event : Event) (env : HandlerEnv) :
    Except CDCError (Option Nat × Option Nat) :=
  if event.force_full_load then .ok (none, none)
  else
    match get_watermark env.store event.table_name env.getFault with
    | .error e => .error e
    | .ok w => .ok (w, w)

/-- `DataExtractor.get_row_count` at the orchestration boundary
(handler.py, line 145; extractor.py, lines 205-230): the count the
source returns, or an `ExtractionError` wrapping a database fault. -/
def get_row_count (env : HandlerEnv) (watermark : Option Nat) :
    Except CDCError Nat :=
  match env.countFault with
  | some m => .error (.extractionError ("Failed to get row count: " ++ m))
  | none => .ok (env.row_count watermark)

/-- The zero-row short-circuit body (handler.py, lines 148-158). -/
def zeroRowBody (table_name execution_id : String) :
    List (String × FieldVal) :=
  [("table_name", .str table_name),
   ("rows_exported", .nat 0),
   ("files_written", .nat 0),
   ("execution_id", .str execution_id),
   ("message", .str "No new rows to export")]

/-- The successful-run result body (handler.py, lines 202-217), with the
timeout message appended when the loop broke on the time budget. -/
def successBody (table_name : String) (st : LoopState)
    (execution_id : String) (duration : Nat) (dry_run : Bool) :
    List (String × FieldVal) :=
  [("table_name", .str table_name),
   ("rows_exported", .nat st.total_rows),
   ("files_written", .nat (get_written_files st.writer)),
   ("execution_id", .str execution_id),
   ("duration_seconds", .nat duration),
   ("new_watermark", .wm st.max_watermark),
   ("timeout_reached", .bool st.timeout_reached),
   ("dry_run", .bool dry_run)] ++
  (if st.timeout_reached then
    [("message", .str "Partial export due to timeout")]
  else [])

/-- `handler` (handler.py, lines 98-232): validate the event, resolve the
watermark, short-circuit on a zero row count, run the export loop, let a
generator error surface unless the loop broke on the time budget, commit
the watermark exactly under the source's condition (`total_rows > 0 and
max_watermark and not config.dry_run`), and build the result. -/
def handler (event : Event) (cfg : ConfigM) (env : HandlerEnv)
    (execution_id : String) : RunResult :=
  if event.table_name = "" then
    { output := .error (.configurationError
        "table_name is required in event payload"),
      writeCalls := [], commitCalls := [], finalStore := env.store,
      writer := ⟨0⟩ }
  else
    match resolveWatermark event env with
    | .error e =>
      { output := .error e, writeCalls := [], commitCalls := [],
        finalStore := env.store, writer := ⟨0⟩ }
    | .ok (watermark, previous_watermark) =>
      match get_row_count env watermark with
      | .error e =>
        { output := .error e, writeCalls := [], commitCalls := [],
          finalStore := env.store, writer := ⟨0⟩ }
      | .ok row_count =>
        if row_count = 0 then
          { output := .ok
              { statusCode := 200,
                body := zeroRowBody event.table_name execution_id },
            writeCalls := [], commitCalls := [], finalStore := env.store,
            writer := ⟨0⟩ }
        else
          match runLoop cfg env execution_id (env.batches watermark).1 0
              { total_rows := 0, max_watermark := watermark,
                timeout_reached := false, writer := ⟨0⟩, writes := [] } with
          | (st, some e) =>
            { output := .error e, writeCalls := st.writes,
              commitCalls := [], finalStore := env.store,
              writer := st.writer }
          | (st, none) =>
            match (if st.timeout_reached then none else (env.batches watermark).2) with
            | some m =>
              { output := .error (.extractionError
                  ("Failed to extract data: " ++ m)),
                writeCalls := st.writes, commitCalls := [],
                finalStore := env.store, writer := st.writer }
            | none =>
              match st.max_watermark with
              | some mw =>
                if st.total_rows > 0 ∧ cfg.dry_run = false then
                  match update_watermark env.store event.table_name mw
                      st.total_rows execution_id env.duration
                      previous_watermark env.now env.commitFault with
                  | .error e =>
                    { output := .error e, writeCalls := st.writes,
                      commitCalls :=
                        [{ table_name := event.table_name, new_watermark := mw,
                           rows_exported := st.total_rows,
                           execution_id := execution_id,
                           duration_seconds := env.duration,
                           previous_watermark := previous_watermark }],
                      finalStore := env.store, writer := st.writer }
                  | .ok store' =>
                    { output := .ok
                        { statusCode := 200,
                          body := successBody event.table_name st
                            execution_id env.duration cfg.dry_run },
                      writeCalls := st.writes,
                      commitCalls :=
                        [{ table_name := event.table_name, new_watermark := mw,
                           rows_exported := st.total_rows,
                           execution_id := execution_id,
                           duration_seconds := env.duration,
                           previous_watermark := previous_watermark }],
                      finalStore := store', writer := st.writer }
                else
                  { output := .ok
                      { statusCode := 200,
                        body := successBody event.table_name st
                          execution_id env.duration cfg.dry_run },
                    writeCalls := st.writes, commitCalls := [],
                    finalStore := env.store, writer := st.writer }
              | none =>
                { output := .ok
                    { statusCode := 200,
                      body := successBody event.table_name st
                        execution_id env.duration cfg.dry_run },
                  writeCalls := st.writes, commitCalls := [],
                  finalStore := env.store, writer := st.writer }

/-- Order on optional watermarks: no watermark (`none`) is below every
watermark; present watermarks compare as timestamps. -/
def wmLeB : Option Nat → Option Nat → Bool
  | none, _ => true
  | some _, none => false
  | some a, some b => a ≤ b

/-- A concrete example environment used by witnesses: the store holds
watermark 3 for table `T`; one one-row batch with maximum watermark 5 is
available at any starting watermark; no faults; no timeout context. -/
def exEnv : HandlerEnv :=
  { store := [("T", ⟨3, 10, "e0", 2, 40⟩)], getFault := none,
    row_count := fun _ => 1, countFault := none,
    batches := fun _ => ([([[("id", 1), ("updated_at", 5)]], some 5)], none),
    writeTs := fun _ => "20240115T103000", writeFault := fun _ => none,
    commitFault := none, ctx := none, duration := 2, now := 7 }

/-- A concrete example configuration used by witnesses. -/
def exCfg : ConfigM := ⟨false, 60, ⟨"cdc", "public", "orders"⟩⟩

/-- A concrete environment with ten available batches and a remaining-time
signal that is ample (5 minutes) before the first batch and below the
60-second buffer (30 seconds) from the second check on. -/
def exEnvT : HandlerEnv :=
  { store := [("T", ⟨3, 10, "e0", 2, 40⟩)], getFault := none,
    row_count := fun _ => 10, countFault := none,
    batches := fun _ =>
      ([([[("id", 1), ("updated_at", 5)]], some 5),
        ([[("id", 2), ("updated_at", 6)]], some 6),
        ([[("id", 3), ("updated_at", 7)]], some 7),
        ([[("id", 4), ("updated_at", 8)]], some 8),
        ([[("id", 5), ("updated_at", 9)]], some 9),
        ([[("id", 6), ("updated_at", 10)]], some 10),
        ([[("id", 7), ("updated_at", 11)]], some 11),
        ([[("id", 8), ("updated_at", 12)]], some 12),
        ([[("id", 9), ("updated_at", 13)]], some 13),
        ([[("id", 10), ("updated_at", 14)]], some 14)], none),
    writeTs := fun _ => "20240115T103000", writeFault := fun _ => none,
    commitFault := none,
    ctx := some (fun i => if i = 0 then 300000 else 30000),
    duration := 2, now := 7 }

/-- Class of the error of a failed commit, `none` when the commit
succeeded. -/
def commitErrClass : Except CDCError Store → Option ErrClass
  | .ok _ => none
  | .error e => some e.cls

/-- Message of the error of a failed commit, `none` when the commit
succeeded. -/
def commitErrMsg : Except CDCError Store → Option String
  | .ok _ => none
  | .error e => some e.msg

/-! ## Helper lemmas -/

theorem lookupStore_insertStore_self (s : Store) (k : String)
    (v : WatermarkRecord) : lookupStore (insertStore s k v) k = some v := by
  simp [lookupStore, insertStore, List.find?]

theorem update_watermark_isError (s : Store) (tn : String)
    (nw re dur now : Nat) (eid : String) (prev : Option Nat) :
    (∃ e, update_watermark s tn nw re eid dur prev now none = .error e) ↔
      evalCondition s tn (commitCondition prev) = false := by
  unfold update_watermark putItem
  by_cases h : evalCondition s tn (commitCondition prev) = true <;> simp [h]

theorem update_watermark_ok (s : Store) (tn : String)
    (nw re dur now : Nat) (eid : String) (prev : Option Nat) (s' : Store)
    (h : update_watermark s tn nw re eid dur prev now none = .ok s') :
    s' = insertStore s tn ⟨nw, re, eid, dur, now⟩ := by
  unfold update_watermark putItem at h
  by_cases hc : evalCondition s tn (commitCondition prev) = true <;>
    simp [hc] at h
  exact h.symm

theorem runLoop_dry (cfg : ConfigM) (env : HandlerEnv) (eid : String)
    (h : cfg.dry_run = true) :
    ∀ (bs : List (List Row × Option Nat)) (i : Nat) (st : LoopState),
      (runLoop cfg env eid bs i st).1.writes = st.writes ∧
      (runLoop cfg env eid bs i st).1.writer = st.writer ∧
      (runLoop cfg env eid bs i st).2 = none := by
  intro bs
  induction bs with
  | nil => intro i st; simp [runLoop]
  | cons b rest ih =>
    intro i st
    obtain ⟨batch, bwm⟩ := b
    by_cases ht : check_timeout env.ctx i cfg.timeout_buffer_seconds = true
    · simp [runLoop, ht]
    · simp only [runLoop, ht, h, if_true, if_false, Bool.false_eq_true,
        reduceIte]
      exact ih (i + 1) _

/-! ## Claims -/

/-- C1, counterexample.  The claim asserts the conflict error is a
distinct error type from the generic storage error; in the code both
paths raise `WatermarkError` (watermark.py, lines 114-120), so at these
concrete inputs a conditional-check failure and a generic `ClientError`
yield errors of the same class. -/
theorem C1_counterexample :
    commitErrClass
        (update_watermark [("ORDERS_CDC", ⟨4, 100, "e0", 10, 50⟩)]
          "ORDERS_CDC" 9 10 "e1" 3 (some 3) 60 none) = some .watermark ∧
    commitErrClass
        (update_watermark [("ORDERS_CDC", ⟨4, 100, "e0", 10, 50⟩)]
          "ORDERS_CDC" 9 10 "e1" 3 (some 4) 60 (some "InternalError"))
      = some .watermark ∧
    commitErrClass
        (update_watermark [("ORDERS_CDC", ⟨4, 100, "e0", 10, 50⟩)]
          "ORDERS_CDC" 9 10 "e1" 3 (some 3) 60 none)
      = commitErrClass
        (update_watermark [("ORDERS_CDC", ⟨4, 100, "e0", 10, 50⟩)]
          "ORDERS_CDC" 9 10 "e1" 3 (some 4) 60 (some "InternalError")) := by
  decide

/-- C1, amended.  When the conditional write's condition does not hold the
commit raises a `WatermarkError` whose message starts with "Concurrent
modification detected"; any other storage failure raises a
`WatermarkError` whose message starts with "Failed to update watermark":
the same exception class, distinguishable only by message, not as a
distinct error type. -/
theorem C1_conflict_same_class (s : Store) (tn : String)
    (nw re dur now : Nat) (eid : String) (prev : Option Nat) :
    (evalCondition s tn (commitCondition prev) = false →
      update_watermark s tn nw re eid dur prev now none =
        .error (.watermarkError
          ("Concurrent modification detected for " ++ tn ++
           ". Another Lambda may have updated the watermark."))) ∧
    (∀ code, code ≠ "ConditionalCheckFailedException" →
      update_watermark s tn nw re eid dur prev now (some code) =
        .error (.watermarkError ("Failed to update watermark: " ++ code))) := by
  constructor
  · intro h
    simp [update_watermark, putItem, h]
  · intro code hc
    simp [update_watermark, putItem, hc]

/-- C1, witness for the amended theorem. -/
theorem C1_conflict_same_class_witness :
    update_watermark [("ORDERS_CDC", ⟨4, 100, "e0", 10, 50⟩)]
        "ORDERS_CDC" 9 10 "e1" 3 (some 3) 60 none =
      .error (.watermarkError
        ("Concurrent modification detected for " ++ "ORDERS_CDC" ++
         ". Another Lambda may have updated the watermark.")) ∧
    update_watermark [("ORDERS_CDC", ⟨4, 100, "e0", 10, 50⟩)]
        "ORDERS_CDC" 9 10 "e1" 3 (some 3) 60 (some "InternalError") =
      .error (.watermarkError
        ("Failed to update watermark: " ++ "InternalError")) :=
  ⟨(C1_conflict_same_class [("ORDERS_CDC", ⟨4, 100, "e0", 10, 50⟩)]
      "ORDERS_CDC" 9 10 3 60 "e1" (some 3)).1 (by decide),
   (C1_conflict_same_class [("ORDERS_CDC", ⟨4, 100, "e0", 10, 50⟩)]
      "ORDERS_CDC" 9 10 3 60 "e1" (some 3)).2 "InternalError" (by decide)⟩

/-- C2.  With no expected previous watermark, the conditional write fails
exactly when a record for the table already exists; with an expected
previous watermark, it fails exactly when the stored watermark does not
equal it (also when no record exists); on success the new record with
the watermark, row count, run id, duration and update timestamp is
stored. -/
theorem C2_conditional_write (s : Store) (tn : String)
    (nw re dur now : Nat) (eid : String) (prev : Option Nat) :
    (prev = none →
      ((∃ e, update_watermark s tn nw re eid dur prev now none = .error e) ↔
        (lookupStore s tn).isSome = true)) ∧
    (∀ p, prev = some p →
      ((∃ e, update_watermark s tn nw re eid dur prev now none = .error e) ↔
        ¬ (lookupStore s tn).map WatermarkRecord.watermark = some p)) ∧
    (∀ s', update_watermark s tn nw re eid dur prev now none = .ok s' →
      lookupStore s' tn = some ⟨nw, re, eid, dur, now⟩) := by
  refine ⟨?_, ?_, ?_⟩
  · rintro rfl
    rw [update_watermark_isError]
    simp only [commitCondition, evalCondition]
    cases lookupStore s tn <;> simp
  · rintro p rfl
    rw [update_watermark_isError]
    simp only [commitCondition, evalCondition]
    cases lookupStore s tn with
    | none => simp
    | some r =>
      by_cases hw : r.watermark = p <;> simp [hw]
  · intro s' h
    rw [update_watermark_ok s tn nw re dur now eid prev s' h]
    exact lookupStore_insertStore_self s tn _

/-- C2, witness: a first-run commit against an empty store succeeds and
stores the record; the same commit against a store that already holds a
record for the table fails. -/
theorem C2_conditional_write_witness :
    lookupStore (insertStore [] "T" ⟨9, 10, "e1", 3, 60⟩) "T" =
        some ⟨9, 10, "e1", 3, 60⟩ ∧
    (∃ e, update_watermark [("T", ⟨4, 1, "e0", 1, 1⟩)]
        "T" 9 10 "e1" 3 none 60 none = .error e) :=
  ⟨(C2_conditional_write [] "T" 9 10 3 60 "e1" none).2.2
      (insertStore [] "T" ⟨9, 10, "e1", 3, 60⟩) (by decide),
   ((C2_conditional_write [("T", ⟨4, 1, "e0", 1, 1⟩)] "T" 9 10 3 60 "e1"
      none).1 rfl).mpr (by decide)⟩

/-- C7.  A dry run never calls the batch write operation and never calls
the watermark commit operation, whatever the extractor yields. -/
theorem C7_dry_run (event : Event) (cfg : ConfigM) (env : HandlerEnv)
    (eid : String) (h : cfg.dry_run = true) :
    (handler event cfg env eid).writeCalls = [] ∧
    (handler event cfg env eid).commitCalls = [] := by
  have hd := runLoop_dry cfg env eid h
  unfold handler
  split
  · simp
  split
  · simp
  rename_i wm prev hres
  split
  · simp
  split
  · simp
  split
  · rename_i st e heq
    have h2 := hd (env.batches wm).1 0 ⟨0, wm, false, ⟨0⟩, []⟩
    rw [heq] at h2
    simp at h2
  · rename_i st heq
    have h2 := hd (env.batches wm).1 0 ⟨0, wm, false, ⟨0⟩, []⟩
    rw [heq] at h2
    simp only [] at h2
    obtain ⟨hw, -, -⟩ := h2
    split
    · simp [hw]
    · split
      · split
        · rename_i hcond
          rw [h] at hcond
          exact absurd hcond.2 (by simp)
        · simp [hw]
      · simp [hw]

/-- C7, witness: a concrete dry run over one non-empty batch performs no
write and no commit. -/
theorem C7_dry_run_witness :
    (handler ⟨"ORDERS_CDC", false⟩ ⟨true, 60, ⟨"cdc", "public", "orders"⟩⟩
      { store := [], getFault := none, row_count := fun _ => 1,
        countFault := none,
        batches := fun _ => ([([[("id", 1), ("updated_at", 5)]], some 5)], none),
        writeTs := fun _ => "20240115T103000", writeFault := fun _ => none,
        commitFault := none, ctx := none, duration := 2, now := 7 }
      "e1").writeCalls = [] ∧
    (handler ⟨"ORDERS_CDC", false⟩ ⟨true, 60, ⟨"cdc", "public", "orders"⟩⟩
      { store := [], getFault := none, row_count := fun _ => 1,
        countFault := none,
        batches := fun _ => ([([[("id", 1), ("updated_at", 5)]], some 5)], none),
        writeTs := fun _ => "20240115T103000", writeFault := fun _ => none,
        commitFault := none, ctx := none, duration := 2, now := 7 }
      "e1").commitCalls = [] :=
  C7_dry_run ⟨"ORDERS_CDC", false⟩ ⟨true, 60, ⟨"cdc", "public", "orders"⟩⟩
    { store := [], getFault := none, row_count := fun _ => 1,
      countFault := none,
      batches := fun _ => ([([[("id", 1), ("updated_at", 5)]], some 5)], none),
      writeTs := fun _ => "20240115T103000", writeFault := fun _ => none,
      commitFault := none, ctx := none, duration := 2, now := 7 }
    "e1" rfl

theorem successBody_keys (tn : String) (st : LoopState) (eid : String)
    (dur : Nat) (dry : Bool) :
    (successBody tn st eid dur dry).map Prod.fst =
      ["table_name", "rows_exported", "files_written", "execution_id",
       "duration_seconds", "new_watermark", "timeout_reached", "dry_run"] ++
      (if st.timeout_reached then ["message"] else []) := by
  by_cases h : st.timeout_reached <;> simp [successBody, h]

/-- C10, counterexample.  The zero-row short-circuit result (handler.py,
lines 148-158) omits `duration_seconds`, `new_watermark`,
`timeout_reached` and `dry_run`, so not every successful result carries
all the claimed fields. -/
theorem C10_counterexample :
    (handler ⟨"ORDERS_CDC", false⟩ ⟨false, 60, ⟨"cdc", "public", "orders"⟩⟩
      { store := [], getFault := none, row_count := fun _ => 0,
        countFault := none, batches := fun _ => ([], none),
        writeTs := fun _ => "", writeFault := fun _ => none,
        commitFault := none, ctx := none, duration := 0, now := 0 }
      "e1").output = .ok ⟨200, zeroRowBody "ORDERS_CDC" "e1"⟩ ∧
    ((zeroRowBody "ORDERS_CDC" "e1").map Prod.fst).contains
      "duration_seconds" = false ∧
    ((zeroRowBody "ORDERS_CDC" "e1").map Prod.fst).contains
      "new_watermark" = false ∧
    ((zeroRowBody "ORDERS_CDC" "e1").map Prod.fst).contains
      "timeout_reached" = false ∧
    ((zeroRowBody "ORDERS_CDC" "e1").map Prod.fst).contains
      "dry_run" = false := by
  decide

/-- C10, amended.  Every successful handler result has status 200 and its
body is one of three shapes: the zero-row short-circuit body, whose
fields are only table name, rows exported, files written, run id and a
message; or the full-run body carrying all of table name, rows exported,
files written, run id, duration, new watermark, timeout flag and dry-run
flag (plus a message when the timeout was reached). -/
theorem C10_result_fields (event : Event) (cfg : ConfigM) (env : HandlerEnv)
    (eid : String) :
    ∀ out, (handler event cfg env eid).output = .ok out →
      out.statusCode = 200 ∧
      (out.body.map Prod.fst =
          ["table_name", "rows_exported", "files_written", "execution_id",
           "message"] ∨
       out.body.map Prod.fst =
          ["table_name", "rows_exported", "files_written", "execution_id",
           "duration_seconds", "new_watermark", "timeout_reached",
           "dry_run"] ∨
       out.body.map Prod.fst =
          ["table_name", "rows_exported", "files_written", "execution_id",
           "duration_seconds", "new_watermark", "timeout_reached", "dry_run",
           "message"]) := by
  intro out hout
  unfold handler at hout
  split at hout
  · simp at hout
  split at hout
  · simp at hout
  split at hout
  · simp at hout
  split at hout
  · simp only [Except.ok.injEq] at hout
    subst hout
    simp [zeroRowBody]
  split at hout
  · simp at hout
  rename_i st heq
  split at hout
  · simp at hout
  split at hout
  · split at hout
    · split at hout
      · simp at hout
      · simp only [Except.ok.injEq] at hout
        subst hout
        refine ⟨rfl, ?_⟩
        rw [successBody_keys]
        by_cases h : st.timeout_reached <;> simp [h]
    · simp only [Except.ok.injEq] at hout
      subst hout
      refine ⟨rfl, ?_⟩
      rw [successBody_keys]
      by_cases h : st.timeout_reached <;> simp [h]
  · simp only [Except.ok.injEq] at hout
    subst hout
    refine ⟨rfl, ?_⟩
    rw [successBody_keys]
    by_cases h : st.timeout_reached <;> simp [h]

/-- C10, witness for the amended theorem: the zero-row run of the
counterexample yields status 200 and the short-circuit field list. -/
theorem C10_result_fields_witness :
    (⟨200, zeroRowBody "ORDERS_CDC" "e1"⟩ : HandlerOutput).statusCode = 200 ∧
    ((⟨200, zeroRowBody "ORDERS_CDC" "e1"⟩ : HandlerOutput).body.map
        Prod.fst =
        ["table_name", "rows_exported", "files_written", "execution_id",
         "message"] ∨
     (⟨200, zeroRowBody "ORDERS_CDC" "e1"⟩ : HandlerOutput).body.map
        Prod.fst =
        ["table_name", "rows_exported", "files_written", "execution_id",
         "duration_seconds", "new_watermark", "timeout_reached",
         "dry_run"] ∨
     (⟨200, zeroRowBody "ORDERS_CDC" "e1"⟩ : HandlerOutput).body.map
        Prod.fst =
        ["table_name", "rows_exported", "files_written", "execution_id",
         "duration_seconds", "new_watermark", "timeout_reached", "dry_run",
         "message"]) :=
  C10_result_fields ⟨"ORDERS_CDC", false⟩
    ⟨false, 60, ⟨"cdc", "public", "orders"⟩⟩
    { store := [], getFault := none, row_count := fun _ => 0,
      countFault := none, batches := fun _ => ([], none),
      writeTs := fun _ => "", writeFault := fun _ => none,
      commitFault := none, ctx := none, duration := 0, now := 0 }
    "e1" ⟨200, zeroRowBody "ORDERS_CDC" "e1"⟩ (by decide)

theorem sqlAscLe_trans (a b c : Option Nat) (h1 : sqlAscLe a b = true)
    (h2 : sqlAscLe b c = true) : sqlAscLe a c = true := by
  cases a <;> cases b <;> cases c <;> simp_all [sqlAscLe]
  omega

theorem sqlAscLe_total (a b : Option Nat) :
    (sqlAscLe a b || sqlAscLe b a) = true := by
  cases a <;> cases b <;> simp [sqlAscLe]
  omega

theorem runQuery_sorted (q : BuiltQuery) (tbl : List Row)
    (h : q.wm_col = q.order_by) :
    (runQuery q tbl).Pairwise
      (fun a b => sqlAscLe a.commit_ts b.commit_ts = true) := by
  unfold runQuery
  rw [List.pairwise_map, h]
  exact List.Pairwise.imp (fun hab => hab)
    (@List.sorted_mergeSort Row
      (fun a b => sqlAscLe (rowGet a q.order_by) (rowGet b q.order_by))
      (fun a b c hab hbc => sqlAscLe_trans _ _ _ hab hbc)
      (fun a b => sqlAscLe_total _ _) _)

theorem runQuery_rows_perm (q : BuiltQuery) (tbl : List Row) :
    ((runQuery q tbl).map QRow.row).Perm
      (match q.filter_gt with
       | none => tbl
       | some w => tbl.filter (rowPasses q.wm_col w)) := by
  unfold runQuery
  rw [List.map_map]
  have hcomp : (QRow.row ∘ fun r : Row =>
      (⟨r, rowGet r q.wm_col, evalOpExpr q.op_expr r⟩ : QRow)) = id := rfl
  rw [hcomp, List.map_id]
  exact List.mergeSort_perm _ _

theorem runQuery_op (q : BuiltQuery) (tbl : List Row) :
    ∀ x ∈ runQuery q tbl, x.op = evalOpExpr q.op_expr x.row := by
  intro x hx
  unfold runQuery at hx
  rw [List.mem_map] at hx
  obtain ⟨r, -, rfl⟩ := hx
  rfl

/-- C8.  `build_query` is a pure Lean function, hence deterministic.  On a
null watermark it yields an unfiltered scan ordered ascending by the
watermark column with every result row classified `'I'`; on watermark `w`
it yields a scan filtered by `wm_col > w`, ordered ascending by the
watermark column, each row classified `'I'` exactly when the configured
insert-marker (created-at) column equals the watermark column, `'U'`
otherwise, and uniformly `'U'` when no insert-marker column is
configured. -/
theorem C8_build_query (tc : TableConfigM) (tbl : List Row) :
    ((build_query tc none).filter_gt = none ∧
     (build_query tc none).order_by = tc.watermark_column ∧
     ((runQuery (build_query tc none) tbl).map QRow.row).Perm tbl ∧
     (∀ x ∈ runQuery (build_query tc none) tbl, x.op = Op.I) ∧
     (runQuery (build_query tc none) tbl).Pairwise
       (fun a b => sqlAscLe a.commit_ts b.commit_ts = true)) ∧
    (∀ w : Nat,
     (build_query tc (some w)).filter_gt = some w ∧
     (build_query tc (some w)).order_by = tc.watermark_column ∧
     ((runQuery (build_query tc (some w)) tbl).map QRow.row).Perm
       (tbl.filter (rowPasses tc.watermark_column w)) ∧
     (runQuery (build_query tc (some w)) tbl).Pairwise
       (fun a b => sqlAscLe a.commit_ts b.commit_ts = true) ∧
     (tc.created_at_column = none →
       ∀ x ∈ runQuery (build_query tc (some w)) tbl, x.op = Op.U) ∧
     (∀ c, tc.created_at_column = some c →
       ∀ x ∈ runQuery (build_query tc (some w)) tbl,
         x.op = (match rowGet x.row c, rowGet x.row tc.watermark_column with
                 | some a, some b => if a = b then Op.I else Op.U
                 | _, _ => Op.U))) := by
  constructor
  · refine ⟨rfl, rfl, ?_, ?_, ?_⟩
    · exact runQuery_rows_perm (build_query tc none) tbl
    · intro x hx
      rw [runQuery_op (build_query tc none) tbl x hx]
      rfl
    · exact runQuery_sorted (build_query tc none) tbl rfl
  · intro w
    refine ⟨?_, ?_, ?_, ?_, ?_, ?_⟩
    · simp [build_query]
    · simp [build_query]
    · have hp := runQuery_rows_perm (build_query tc (some w)) tbl
      simpa [build_query] using hp
    · exact runQuery_sorted (build_query tc (some w)) tbl (by simp [build_query])
    · intro hc x hx
      rw [runQuery_op (build_query tc (some w)) tbl x hx]
      simp [build_query, hc, evalOpExpr]
    · intro c hc x hx
      rw [runQuery_op (build_query tc (some w)) tbl x hx]
      simp [build_query, hc, evalOpExpr]

/-- C8, witness: a concrete table configuration with an insert-marker
column, a three-row table and watermark 5. -/
theorem C8_build_query_witness :
    (build_query ⟨["id"], "updated_at", some "created_at", 2⟩
      (some 5)).filter_gt = some 5 ∧
    ((runQuery (build_query ⟨["id"], "updated_at", some "created_at", 2⟩
        (some 5))
        [[("id", 1), ("updated_at", 9), ("created_at", 9)],
         [("id", 2), ("updated_at", 3), ("created_at", 1)],
         [("id", 3), ("updated_at", 7), ("created_at", 2)]]).map
      QRow.row).Perm
      ([[("id", 1), ("updated_at", 9), ("created_at", 9)],
        [("id", 2), ("updated_at", 3), ("created_at", 1)],
        [("id", 3), ("updated_at", 7), ("created_at", 2)]].filter
        (rowPasses "updated_at" 5)) :=
  ⟨((C8_build_query ⟨["id"], "updated_at", some "created_at", 2⟩
      [[("id", 1), ("updated_at", 9), ("created_at", 9)],
       [("id", 2), ("updated_at", 3), ("created_at", 1)],
       [("id", 3), ("updated_at", 7), ("created_at", 2)]]).2 5).1,
   ((C8_build_query ⟨["id"], "updated_at", some "created_at", 2⟩
      [[("id", 1), ("updated_at", 9), ("created_at", 9)],
       [("id", 2), ("updated_at", 3), ("created_at", 1)],
       [("id", 3), ("updated_at", 7), ("created_at", 2)]]).2 5).2.2.1⟩

theorem wmLeB_refl (a : Option Nat) : wmLeB a a = true := by
  cases a <;> simp [wmLeB]

theorem wmLeB_trans {a b c : Option Nat} (h1 : wmLeB a b = true)
    (h2 : wmLeB b c = true) : wmLeB a c = true := by
  cases a <;> cases b <;> cases c <;> simp_all [wmLeB]
  omega

theorem wmLeB_updateMax (b m : Option Nat) : wmLeB m (updateMax b m) = true := by
  cases b with
  | none => exact wmLeB_refl m
  | some bv =>
    cases m with
    | none => simp [updateMax, wmLeB]
    | some mv =>
      simp only [updateMax]
      by_cases h : bv > mv
      · simp only [h, if_true, reduceIte, wmLeB]
        simp
        omega
      · simp only [h, reduceIte]
        exact wmLeB_refl _

theorem runLoop_wmLe (cfg : ConfigM) (env : HandlerEnv) (eid : String) :
    ∀ (bs : List (List Row × Option Nat)) (i : Nat) (st : LoopState),
      wmLeB st.max_watermark
        ((runLoop cfg env eid bs i st).1.max_watermark) = true := by
  intro bs
  induction bs with
  | nil => intro i st; simpa [runLoop] using wmLeB_refl st.max_watermark
  | cons b rest ih =>
    intro i st
    obtain ⟨batch, bwm⟩ := b
    by_cases ht : check_timeout env.ctx i cfg.timeout_buffer_seconds = true
    · simpa [runLoop, ht] using wmLeB_refl st.max_watermark
    · rw [Bool.not_eq_true] at ht
      by_cases hd : cfg.dry_run = true
      · simp only [runLoop, ht, hd, Bool.false_eq_true, reduceIte, if_true]
        exact wmLeB_trans (wmLeB_updateMax bwm st.max_watermark)
          (ih (i + 1) ⟨st.total_rows + batch.length,
            updateMax bwm st.max_watermark, st.timeout_reached, st.writer,
            st.writes⟩)
      · rw [Bool.not_eq_true] at hd
        rcases hw : write_batch cfg.keyCfg eid st.writer batch
            (env.writeTs st.writer.batch_counter)
            (env.writeFault st.writer.batch_counter) with ⟨r, w'⟩
        cases r with
        | error e =>
          simpa [runLoop, ht, hd, hw] using wmLeB_refl st.max_watermark
        | ok k =>
          simp only [runLoop, ht, hd, hw, Bool.false_eq_true, reduceIte]
          exact wmLeB_trans (wmLeB_updateMax bwm st.max_watermark)
            (ih (i + 1) ⟨st.total_rows + batch.length,
              updateMax bwm st.max_watermark, st.timeout_reached, w',
              st.writes ++ [batch]⟩)

theorem runLoop_append (cfg : ConfigM) (env : HandlerEnv) (eid : String) :
    ∀ (l₁ l₂ : List (List Row × Option Nat)) (i : Nat) (st : LoopState),
      st.timeout_reached = false →
      runLoop cfg env eid (l₁ ++ l₂) i st =
        (match runLoop cfg env eid l₁ i st with
         | (st', some e) => (st', some e)
         | (st', none) =>
           if st'.timeout_reached then (st', none)
           else runLoop cfg env eid l₂ (i + l₁.length) st') := by
  intro l₁
  induction l₁ with
  | nil =>
    intro l₂ i st hst
    simp [runLoop, hst]
  | cons b rest ih =>
    intro l₂ i st hst
    obtain ⟨batch, bwm⟩ := b
    by_cases ht : check_timeout env.ctx i cfg.timeout_buffer_seconds = true
    · simp [runLoop, ht]
    · rw [Bool.not_eq_true] at ht
      have harith : i + 1 + rest.length = i + ((batch, bwm) :: rest).length := by
        rw [List.length_cons]
        omega
      by_cases hd : cfg.dry_run = true
      · simp only [List.cons_append, runLoop, ht, hd, Bool.false_eq_true,
          reduceIte, if_true]
        have hrec := ih l₂ (i + 1) ⟨st.total_rows + batch.length,
          updateMax bwm st.max_watermark, st.timeout_reached, st.writer,
          st.writes⟩ (by simpa using hst)
        rw [harith] at hrec
        exact hrec
      · rw [Bool.not_eq_true] at hd
        rcases hw : write_batch cfg.keyCfg eid st.writer batch
            (env.writeTs st.writer.batch_counter)
            (env.writeFault st.writer.batch_counter) with ⟨r, w'⟩
        cases r with
        | error e =>
          simp [List.cons_append, runLoop, ht, hd, hw]
        | ok k =>
          simp only [List.cons_append, runLoop, ht, hd, hw,
            Bool.false_eq_true, reduceIte]
          have hrec := ih l₂ (i + 1) ⟨st.total_rows + batch.length,
            updateMax bwm st.max_watermark, st.timeout_reached, w',
            st.writes ++ [batch]⟩ (by simpa using hst)
          rw [harith] at hrec
          exact hrec

/-- C4.  The maximum watermark accumulated by the handler loop is
monotonically non-decreasing in the number of processed batches, never
drops below the starting watermark, and hence any watermark the run
commits is at least the watermark the run started from. -/
theorem C4_monotone_watermark (cfg : ConfigM) (env : HandlerEnv)
    (eid : String) :
    (∀ (W0 : Option Nat) (bs : List (List Row × Option Nat)) (N : Nat),
      wmLeB ((runLoop cfg env eid (bs.take N) 0
                ⟨0, W0, false, ⟨0⟩, []⟩).1.max_watermark)
            ((runLoop cfg env eid (bs.take (N + 1)) 0
                ⟨0, W0, false, ⟨0⟩, []⟩).1.max_watermark) = true) ∧
    (∀ (W0 : Option Nat) (bs : List (List Row × Option Nat)),
      wmLeB W0 ((runLoop cfg env eid bs 0
        ⟨0, W0, false, ⟨0⟩, []⟩).1.max_watermark) = true) ∧
    (∀ (event : Event) (w0 : Nat) (wm prev : Option Nat) (c : CommitCall),
      resolveWatermark event env = .ok (wm, prev) → wm = some w0 →
      c ∈ (handler event cfg env eid).commitCalls →
      w0 ≤ c.new_watermark) := by
  refine ⟨?_, ?_, ?_⟩
  · intro W0 bs N
    by_cases hN : bs.length ≤ N
    · rw [List.take_of_length_le hN, List.take_of_length_le (by omega)]
      exact wmLeB_refl _
    · push_neg at hN
      rw [List.take_succ, List.getElem?_eq_getElem hN]
      rw [runLoop_append cfg env eid _ _ 0 _ rfl]
      rcases hr : runLoop cfg env eid (bs.take N) 0
          ⟨0, W0, false, ⟨0⟩, []⟩ with ⟨st', err⟩
      cases err with
      | some e => exact wmLeB_refl _
      | none =>
        by_cases htr : st'.timeout_reached = true
        · simp only [htr, if_true, reduceIte]
          exact wmLeB_refl _
        · rw [Bool.not_eq_true] at htr
          simp only [htr, Bool.false_eq_true, reduceIte]
          exact runLoop_wmLe cfg env eid _ _ st'
  · intro W0 bs
    exact runLoop_wmLe cfg env eid bs 0 ⟨0, W0, false, ⟨0⟩, []⟩
  · intro event w0 wm prev c hres hwm hc
    unfold handler at hc
    split at hc
    · simp at hc
    split at hc
    · simp at hc
    rename_i wm' prev' hres'
    rw [hres'] at hres
    simp only [Except.ok.injEq, Prod.mk.injEq] at hres
    obtain ⟨hwm', -⟩ := hres
    split at hc
    · simp at hc
    split at hc
    · simp at hc
    split at hc
    · simp at hc
    rename_i st heq
    split at hc
    · simp at hc
    split at hc
    · rename_i mw hmax
      split at hc
      · have hle := runLoop_wmLe cfg env eid (env.batches wm').1 0
          ⟨0, wm', false, ⟨0⟩, []⟩
        rw [heq] at hle
        simp only at hle
        rw [hmax, hwm', hwm] at hle
        split at hc <;>
          · simp only [List.mem_singleton] at hc
            subst hc
            simpa [wmLeB] using hle
      · simp at hc
    · simp at hc

/-- C4, witness: on the example environment, starting from watermark 3,
the accumulated maximum is monotone from 0 to 1 processed batches, stays
at least 3, and the committed watermark 5 is at least 3. -/
theorem C4_monotone_watermark_witness :
    wmLeB ((runLoop exCfg exEnv "e1"
              ([([[("id", 1), ("updated_at", 5)]], some 5)].take 0) 0
              ⟨0, some 3, false, ⟨0⟩, []⟩).1.max_watermark)
          ((runLoop exCfg exEnv "e1"
              ([([[("id", 1), ("updated_at", 5)]], some 5)].take 1) 0
              ⟨0, some 3, false, ⟨0⟩, []⟩).1.max_watermark) = true ∧
    wmLeB (some 3)
          ((runLoop exCfg exEnv "e1"
              [([[("id", 1), ("updated_at", 5)]], some 5)] 0
              ⟨0, some 3, false, ⟨0⟩, []⟩).1.max_watermark) = true ∧
    (3 : Nat) ≤ (⟨"T", 5, 1, "e1", 2, some 3⟩ : CommitCall).new_watermark :=
  ⟨(C4_monotone_watermark exCfg exEnv "e1").1 (some 3)
      [([[("id", 1), ("updated_at", 5)]], some 5)] 0,
   (C4_monotone_watermark exCfg exEnv "e1").2.1 (some 3)
      [([[("id", 1), ("updated_at", 5)]], some 5)],
   (C4_monotone_watermark exCfg exEnv "e1").2.2 ⟨"T", false⟩ 3 (some 3)
      (some 3) ⟨"T", 5, 1, "e1", 2, some 3⟩ (by decide) rfl (by decide)⟩

/-- C3.  Per run the watermark commit is invoked at most once, and it is
invoked exactly when the run reached and completed its export loop
(normally or by breaking on the time budget) with no error raised, at
least one row exported, a maximum watermark observed, and the run not a
dry run.  In particular a zero-row run (short-circuited on the count, or
counting rows but accumulating none) and a run aborted by an
extraction, write or store error never invoke the commit. -/
theorem C3_commit_exactly_once (event : Event) (cfg : ConfigM)
    (env : HandlerEnv) (eid : String) :
    (handler event cfg env eid).commitCalls.length ≤ 1 ∧
    ((handler event cfg env eid).commitCalls ≠ [] ↔
      (event.table_name ≠ "" ∧
       match resolveWatermark event env with
       | .error _ => False
       | .ok (watermark, _) =>
         match get_row_count env watermark with
         | .error _ => False
         | .ok row_count =>
           row_count ≠ 0 ∧
           match runLoop cfg env eid (env.batches watermark).1 0
               ⟨0, watermark, false, ⟨0⟩, []⟩ with
           | (_, some _) => False
           | (st, none) =>
             (st.timeout_reached = true ∨ (env.batches watermark).2 = none) ∧
             st.total_rows > 0 ∧ st.max_watermark.isSome = true ∧
             cfg.dry_run = false)) := by
  unfold handler
  split
  · rename_i h
    exact ⟨by simp, by simp [h]⟩
  rename_i htn
  split
  · exact ⟨by simp, by simp⟩
  rename_i wm prev hres
  split
  · exact ⟨by simp, by simp⟩
  rename_i rc hrc
  split
  · rename_i h0
    exact ⟨by simp, by simp [h0]⟩
  rename_i h0
  split
  · exact ⟨by simp, by simp⟩
  rename_i st heq
  split
  · rename_i m hm
    have hto : st.timeout_reached = false := by
      by_cases h : st.timeout_reached = true
      · rw [h] at hm
        simp at hm
      · rwa [Bool.not_eq_true] at h
    rw [hto] at hm
    simp only [Bool.false_eq_true, reduceIte] at hm
    exact ⟨by simp, by simp [hto, hm]⟩
  rename_i hnoerr
  have hdisj : st.timeout_reached = true ∨ (env.batches wm).2 = none := by
    by_cases h : st.timeout_reached = true
    · exact .inl h
    · right
      rw [Bool.not_eq_true] at h
      rw [h] at hnoerr
      simpa using hnoerr
  split
  · rename_i mw hmax
    split
    · rename_i hcond
      split
      · exact ⟨by simp, by simp [htn, h0, hdisj, hmax, hcond.1, hcond.2]⟩
      · exact ⟨by simp, by simp [htn, h0, hdisj, hmax, hcond.1, hcond.2]⟩
    · rename_i hcond
      refine ⟨by simp, ?_⟩
      constructor
      · intro hfalse
        simp at hfalse
      · rintro ⟨-, -, -, ht0, hsome, hdry⟩
        exact absurd ⟨ht0, hdry⟩ hcond
  · rename_i hmax
    exact ⟨by simp, by simp [hmax]⟩

/-- C3, witness: on the example environment the run commits exactly
once. -/
theorem C3_commit_exactly_once_witness :
    (handler ⟨"T", false⟩ exCfg exEnv "e1").commitCalls.length ≤ 1 ∧
    ((handler ⟨"T", false⟩ exCfg exEnv "e1").commitCalls ≠ [] ↔
      (Event.table_name ⟨"T", false⟩ ≠ "" ∧
       match resolveWatermark ⟨"T", false⟩ exEnv with
       | .error _ => False
       | .ok (watermark, _) =>
         match get_row_count exEnv watermark with
         | .error _ => False
         | .ok row_count =>
           row_count ≠ 0 ∧
           match runLoop exCfg exEnv "e1" (exEnv.batches watermark).1 0
               ⟨0, watermark, false, ⟨0⟩, []⟩ with
           | (_, some _) => False
           | (st, none) =>
             (st.timeout_reached = true ∨
               (exEnv.batches watermark).2 = none) ∧
             st.total_rows > 0 ∧ st.max_watermark.isSome = true ∧
             exCfg.dry_run = false)) :=
  C3_commit_exactly_once ⟨"T", false⟩ exCfg exEnv "e1"

/-- C6.  A non-dry forced full reload (`force_full_load = true`) of a
table whose watermark record already exists, reaching the commit with at
least one exported row, attempts the commit with an absent
expected-previous watermark; the conditional put requires that no record
exist, so the commit raises the concurrent-modification `WatermarkError`
and the run ends in error with the store unchanged — a forced full
reload of a previously exported table can never complete successfully. -/
theorem C6_force_full_load_conflict (event : Event) (cfg : ConfigM)
    (env : HandlerEnv) (eid : String) (st : LoopState) (mw : Nat)
    (h1 : event.force_full_load = true)
    (h2 : event.table_name ≠ "")
    (h3 : (lookupStore env.store event.table_name).isSome = true)
    (h4 : env.countFault = none)
    (h5 : env.row_count none ≠ 0)
    (h6 : runLoop cfg env eid (env.batches none).1 0
            ⟨0, none, false, ⟨0⟩, []⟩ = (st, none))
    (h7 : st.timeout_reached = true ∨ (env.batches none).2 = none)
    (h8 : st.max_watermark = some mw)
    (h9 : st.total_rows > 0)
    (h10 : cfg.dry_run = false)
    (h11 : env.commitFault = none) :
    (handler event cfg env eid).output = .error (.watermarkError
        ("Concurrent modification detected for " ++ event.table_name ++
         ". Another Lambda may have updated the watermark.")) ∧
    (handler event cfg env eid).commitCalls =
      [⟨event.table_name, mw, st.total_rows, eid, env.duration, none⟩] ∧
    (handler event cfg env eid).finalStore = env.store := by
  have hres : resolveWatermark event env = .ok (none, none) := by
    simp [resolveWatermark, h1]
  have hcount : get_row_count env none = .ok (env.row_count none) := by
    simp [get_row_count, h4]
  have hcondfalse :
      evalCondition env.store event.table_name (commitCondition none) = false := by
    simp only [commitCondition, evalCondition]
    rcases hlk : lookupStore env.store event.table_name with _ | r
    · rw [hlk] at h3
      simp at h3
    · simp
  have hupd : update_watermark env.store event.table_name mw st.total_rows
      eid env.duration none env.now env.commitFault =
      .error (.watermarkError
        ("Concurrent modification detected for " ++ event.table_name ++
         ". Another Lambda may have updated the watermark.")) := by
    rw [h11]
    unfold update_watermark putItem
    simp [hcondfalse]
  have hnone : (if st.timeout_reached = true then none
      else (env.batches (none : Option Nat)).2) = none := by
    rcases h7 with h | h
    · simp [h]
    · by_cases hb : st.timeout_reached = true <;> simp [hb, h]
  have hh : handler event cfg env eid =
      { output := .error (.watermarkError
          ("Concurrent modification detected for " ++ event.table_name ++
           ". Another Lambda may have updated the watermark.")),
        writeCalls := st.writes,
        commitCalls :=
          [⟨event.table_name, mw, st.total_rows, eid, env.duration, none⟩],
        finalStore := env.store, writer := st.writer } := by
    unfold handler
    simp [h2, hres, hcount, h5, h6, hnone, h8, h9, h10, hupd]
  exact ⟨by rw [hh], by rw [hh], by rw [hh]⟩

/-- C6, witness: a forced full reload of table `T`, whose record exists
in the example store, exports one row and then fails its commit with the
concurrent-modification error. -/
theorem C6_force_full_load_conflict_witness :
    (handler ⟨"T", true⟩ exCfg exEnv "e1").output = .error (.watermarkError
        ("Concurrent modification detected for " ++ "T" ++
         ". Another Lambda may have updated the watermark.")) ∧
    (handler ⟨"T", true⟩ exCfg exEnv "e1").commitCalls =
      [⟨"T", 5, 1, "e1", 2, none⟩] ∧
    (handler ⟨"T", true⟩ exCfg exEnv "e1").finalStore = exEnv.store :=
  C6_force_full_load_conflict ⟨"T", true⟩ exCfg exEnv "e1"
    ⟨1, some 5, false, ⟨1⟩, [[[("id", 1), ("updated_at", 5)]]]⟩ 5
    rfl (by decide) (by decide) rfl (by decide) (by decide)
    (.inr rfl) rfl (by decide) rfl rfl

/-- C5.  With a remaining-time signal ample before the first batch and
below the buffer at every later check, and at least two batches
available, a non-dry run writes exactly the first batch (never touching
the in-hand second batch), invokes the commit with the first batch's
maximum watermark — not the full dataset's — and any successful result
reports `timeout_reached = true` and the first batch's row count. -/
theorem C5_timeout_one_batch (event : Event) (cfg : ConfigM)
    (env : HandlerEnv) (eid : String) (f : Nat → Nat) (wm prev : Option Nat)
    (b₁ b₂ : List Row) (w₁ : Nat) (w₂ : Option Nat)
    (rest' : List (List Row × Option Nat)) (serr : Option String)
    (h1 : event.table_name ≠ "")
    (h2 : resolveWatermark event env = .ok (wm, prev))
    (h3 : env.countFault = none)
    (h4 : env.row_count wm ≠ 0)
    (h5 : env.batches wm = ((b₁, some w₁) :: (b₂, w₂) :: rest', serr))
    (h6 : env.ctx = some f)
    (h7 : cfg.timeout_buffer_seconds * 1000 ≤ f 0)
    (h8 : ∀ i, 1 ≤ i → f i < cfg.timeout_buffer_seconds * 1000)
    (h9 : b₁ ≠ [])
    (h10 : cfg.dry_run = false)
    (h11 : env.writeFault 0 = none)
    (h12 : updateMax (some w₁) wm = some w₁) :
    (handler event cfg env eid).writeCalls = [b₁] ∧
    (handler event cfg env eid).commitCalls =
      [⟨event.table_name, w₁, b₁.length, eid, env.duration, prev⟩] ∧
    (∀ out, (handler event cfg env eid).output = .ok out →
      ("timeout_reached", FieldVal.bool true) ∈ out.body ∧
      ("rows_exported", FieldVal.nat b₁.length) ∈ out.body) := by
  have hcount : get_row_count env wm = .ok (env.row_count wm) := by
    simp [get_row_count, h3]
  have hck0 : check_timeout env.ctx 0 cfg.timeout_buffer_seconds = false := by
    rw [h6]
    simp only [check_timeout, decide_eq_false_iff_not, not_lt]
    exact h7
  have hck1 : check_timeout env.ctx 1 cfg.timeout_buffer_seconds = true := by
    rw [h6]
    simp only [check_timeout, decide_eq_true_eq]
    exact h8 1 le_rfl
  have hb1 : b₁.isEmpty = false := by
    cases b₁ with
    | nil => exact absurd rfl h9
    | cons a l => rfl
  have hwb : write_batch cfg.keyCfg eid ⟨0⟩ b₁ (env.writeTs 0)
      (env.writeFault 0) =
      (.ok (generate_key cfg.keyCfg eid (env.writeTs 0) 1), ⟨1⟩) := by
    rw [h11]
    unfold write_batch
    rw [hb1]
    simp
  have hloop : runLoop cfg env eid ((b₁, some w₁) :: (b₂, w₂) :: rest') 0
      ⟨0, wm, false, ⟨0⟩, []⟩ =
      (⟨b₁.length, some w₁, true, ⟨1⟩, [b₁]⟩, none) := by
    simp only [runLoop, hck0, hck1, h10, hwb, Bool.false_eq_true, reduceIte]
    simp [h12]
  have hlen : 0 < b₁.length := List.length_pos.mpr h9
  rcases hu : update_watermark env.store event.table_name w₁ b₁.length eid
      env.duration prev env.now env.commitFault with e | s'
  · have hh : handler event cfg env eid =
        { output := .error e, writeCalls := [b₁],
          commitCalls :=
            [⟨event.table_name, w₁, b₁.length, eid, env.duration, prev⟩],
          finalStore := env.store, writer := ⟨1⟩ } := by
      unfold handler
      simp [h1, h2, hcount, h4, h5, hloop, hlen, h10, hu]
    refine ⟨by rw [hh], by rw [hh], ?_⟩
    intro out hout
    rw [hh] at hout
    simp at hout
  · have hh : handler event cfg env eid =
        { output := .ok ⟨200, successBody event.table_name
            ⟨b₁.length, some w₁, true, ⟨1⟩, [b₁]⟩ eid env.duration
            cfg.dry_run⟩,
          writeCalls := [b₁],
          commitCalls :=
            [⟨event.table_name, w₁, b₁.length, eid, env.duration, prev⟩],
          finalStore := s', writer := ⟨1⟩ } := by
      unfold handler
      simp [h1, h2, hcount, h4, h5, hloop, hlen, h10, hu]
    refine ⟨by rw [hh], by rw [hh], ?_⟩
    intro out hout
    rw [hh] at hout
    simp only [Except.ok.injEq] at hout
    subst hout
    refine ⟨?_, ?_⟩ <;> simp [successBody]

/-- C5, witness: on the synthetic ten-batch environment with the
ample-then-insufficient signal, the run writes only the first batch and
commits watermark 5 (the first batch's maximum, not 14). -/
theorem C5_timeout_one_batch_witness :
    (handler ⟨"T", false⟩ exCfg exEnvT "e1").writeCalls =
      [[[("id", 1), ("updated_at", 5)]]] ∧
    (handler ⟨"T", false⟩ exCfg exEnvT "e1").commitCalls =
      [⟨"T", 5, 1, "e1", 2, some 3⟩] ∧
    (∀ out, (handler ⟨"T", false⟩ exCfg exEnvT "e1").output = .ok out →
      ("timeout_reached", FieldVal.bool true) ∈ out.body ∧
      ("rows_exported", FieldVal.nat 1) ∈ out.body) :=
  C5_timeout_one_batch ⟨"T", false⟩ exCfg exEnvT "e1"
    (fun i => if i = 0 then 300000 else 30000) (some 3) (some 3)
    [[("id", 1), ("updated_at", 5)]] [[("id", 2), ("updated_at", 6)]] 5
    (some 6)
    [([[("id", 3), ("updated_at", 7)]], some 7),
     ([[("id", 4), ("updated_at", 8)]], some 8),
     ([[("id", 5), ("updated_at", 9)]], some 9),
     ([[("id", 6), ("updated_at", 10)]], some 10),
     ([[("id", 7), ("updated_at", 11)]], some 11),
     ([[("id", 8), ("updated_at", 12)]], some 12),
     ([[("id", 9), ("updated_at", 13)]], some 13),
     ([[("id", 10), ("updated_at", 14)]], some 14)] none
    (by decide) (by decide) rfl (by decide) rfl rfl (by decide)
    (fun i hi => by
      have h0 : i ≠ 0 := by omega
      simp [h0, exCfg])
    (by decide) rfl rfl (by decide)

theorem digitChar_inj_lt :
    ∀ d₁ < 10, ∀ d₂ < 10, digitChar d₁ = digitChar d₂ → d₁ = d₂ := by decide

theorem digitChar_ne_zero_char : ∀ d < 10, d ≠ 0 → ¬ digitChar d = '0' := by
  decide

theorem digitChar_ne_sep : ∀ d < 10, ¬ digitChar d = '_' := by decide

theorem map_digitChar_inj :
    ∀ (l₁ l₂ : List Nat), (∀ d ∈ l₁, d < 10) → (∀ d ∈ l₂, d < 10) →
      l₁.map digitChar = l₂.map digitChar → l₁ = l₂
  | [], [], _, _, _ => rfl
  | [], _ :: _, _, _, h => by simp at h
  | _ :: _, [], _, _, h => by simp at h
  | a :: l₁, b :: l₂, h₁, h₂, h => by
    simp only [List.map_cons, List.cons.injEq] at h
    rw [digitChar_inj_lt a (h₁ a (by simp)) b (h₂ b (by simp)) h.1,
      map_digitChar_inj l₁ l₂ (fun d hd => h₁ d (by simp [hd]))
        (fun d hd => h₂ d (by simp [hd])) h.2]

theorem natChars_inj {a b : Nat} (h : natChars a = natChars b) : a = b := by
  unfold natChars at h
  have h' := List.reverse_injective h
  have hd := map_digitChar_inj (Nat.digits 10 a) (Nat.digits 10 b)
    (fun d hd => Nat.digits_lt_base (by norm_num) hd)
    (fun d hd => Nat.digits_lt_base (by norm_num) hd) h'
  calc a = Nat.ofDigits 10 (Nat.digits 10 a) := (Nat.ofDigits_digits 10 a).symm
    _ = Nat.ofDigits 10 (Nat.digits 10 b) := by rw [hd]
    _ = b := Nat.ofDigits_digits 10 b

theorem natChars_ne_nil {n : Nat} (h : n ≠ 0) : natChars n ≠ [] := by
  unfold natChars
  simp [Nat.digits_ne_nil_iff_ne_zero, h]

theorem natChars_head_ne_zero {n : Nat} (hn : n ≠ 0) :
    ∀ c t, natChars n = c :: t → ¬ c = '0' := by
  intro c t hct
  rcases List.eq_nil_or_concat (Nat.digits 10 n) with hnil | ⟨ds, d, hds⟩
  · exact absurd hnil (Nat.digits_ne_nil_iff_ne_zero.mpr hn)
  · rw [List.concat_eq_append] at hds
    have hne : Nat.digits 10 n ≠ [] := Nat.digits_ne_nil_iff_ne_zero.mpr hn
    have hlast : (Nat.digits 10 n).getLast? = some d := by
      rw [hds]
      exact List.getLast?_concat ds
    have hlast2 : (Nat.digits 10 n).getLast? =
        some ((Nat.digits 10 n).getLast hne) := List.getLast?_eq_getLast _ hne
    have hdlast : d = (Nat.digits 10 n).getLast hne := by
      rw [hlast] at hlast2
      exact (Option.some.injEq _ _ ▸ hlast2 : d = _)
    have hd0 : d ≠ 0 := by
      rw [hdlast]
      exact Nat.getLast_digit_ne_zero 10 hn
    have hdlt : d < 10 := Nat.digits_lt_base (by norm_num)
      (by rw [hds]; exact List.mem_append_right _ (by simp))
    unfold natChars at hct
    rw [hds, List.map_append, List.reverse_append] at hct
    simp only [List.map_cons, List.map_nil, List.reverse_cons,
      List.reverse_nil, List.nil_append, List.singleton_append,
      List.cons.injEq] at hct
    rw [← hct.1]
    exact digitChar_ne_zero_char d hdlt hd0

theorem dropZeros_pad (k : Nat) (s : List Char)
    (hs : ∀ c t, s = c :: t → ¬ c = '0') :
    (List.replicate k '0' ++ s).dropWhile (fun c => c == '0') = s := by
  induction k with
  | zero =>
    simp only [List.replicate_zero, List.nil_append]
    cases s with
    | nil => rfl
    | cons c t =>
      rw [List.dropWhile_cons]
      have hc := hs c t rfl
      simp [hc]
  | succ k ih =>
    rw [List.replicate_succ, List.cons_append, List.dropWhile_cons]
    simpa using ih

theorem pad4Chars_eq (n : Nat) :
    pad4Chars n = List.replicate (4 - (natChars n).length) '0' ++ natChars n :=
  rfl

theorem natChars_zero : natChars 0 = [] := by
  unfold natChars
  simp

theorem pad4Chars_zero_drop :
    (pad4Chars 0).dropWhile (fun c => c == '0') = [] := by
  have h := dropZeros_pad (4 - (natChars 0).length) (natChars 0)
    (fun c t hct => by rw [natChars_zero] at hct; simp at hct)
  rw [← pad4Chars_eq] at h
  rw [h, natChars_zero]

theorem dropZeros_pad4 {n : Nat} (hn : n ≠ 0) :
    (pad4Chars n).dropWhile (fun c => c == '0') = natChars n := by
  have h := dropZeros_pad (4 - (natChars n).length) (natChars n)
    (natChars_head_ne_zero hn)
  rw [← pad4Chars_eq] at h
  exact h

theorem pad4Chars_inj {a b : Nat} (h : pad4Chars a = pad4Chars b) : a = b := by
  have hc := congrArg (List.dropWhile (fun c => c == '0')) h
  rcases Nat.eq_zero_or_pos a with ha | ha
  · subst ha
    rcases Nat.eq_zero_or_pos b with hb | hb
    · rw [hb]
    · have hb' : b ≠ 0 := by omega
      rw [pad4Chars_zero_drop, dropZeros_pad4 hb'] at hc
      exact absurd hc.symm (natChars_ne_nil hb')
  · have ha' : a ≠ 0 := by omega
    rcases Nat.eq_zero_or_pos b with hb | hb
    · subst hb
      rw [dropZeros_pad4 ha', pad4Chars_zero_drop] at hc
      exact absurd hc (natChars_ne_nil ha')
    · have hb' : b ≠ 0 := by omega
      rw [dropZeros_pad4 ha', dropZeros_pad4 hb'] at hc
      exact natChars_inj hc

theorem pad4Chars_ne_sep {n : Nat} {c : Char} (h : c ∈ pad4Chars n) :
    ¬ c = '_' := by
  rw [pad4Chars_eq, List.mem_append] at h
  rcases h with h | h
  · rw [List.eq_of_mem_replicate h]
    decide
  · unfold natChars at h
    rw [List.mem_reverse, List.mem_map] at h
    obtain ⟨d, hd, rfl⟩ := h
    exact digitChar_ne_sep d (Nat.digits_lt_base (by norm_num) hd)

theorem append_sep_inj {α : Type} [DecidableEq α] (sep : α) :
    ∀ (a b c d : List α), sep ∉ a → sep ∉ b →
      a ++ sep :: c = b ++ sep :: d → a = b ∧ c = d := by
  intro a
  induction a with
  | nil =>
    intro b c d _ hb h
    cases b with
    | nil =>
      simp only [List.nil_append, List.cons.injEq] at h
      exact ⟨rfl, h.2⟩
    | cons y b' =>
      simp only [List.nil_append, List.cons_append, List.cons.injEq] at h
      exact absurd (by rw [h.1]; exact List.mem_cons_self y b') hb
  | cons x a' ih =>
    intro b c d ha hb h
    cases b with
    | nil =>
      simp only [List.cons_append, List.nil_append, List.cons.injEq] at h
      exact absurd (by rw [← h.1]; exact List.mem_cons_self x a') ha
    | cons y b' =>
      simp only [List.cons_append, List.cons.injEq] at h
      obtain ⟨rfl, h2⟩ := h
      have hres := ih b' c d (fun hm => ha (List.mem_cons_of_mem _ hm))
        (fun hm => hb (List.mem_cons_of_mem _ hm)) h2
      exact ⟨by rw [hres.1], hres.2⟩

theorem append2_sep_inj {α : Type} [DecidableEq α] (sep : α) (A : List α)
    (b₁ b₂ c₁ c₂ : List α) (h₁ : sep ∉ b₁) (h₂ : sep ∉ b₂)
    (h : A ++ (b₁ ++ sep :: c₁) = A ++ (b₂ ++ sep :: c₂)) : b₁ = b₂ :=
  (append_sep_inj sep b₁ b₂ c₁ c₂ h₁ h₂ (List.append_cancel_left h)).1

theorem generate_key_counter_inj (kc : KeyConfig) (eid ts₁ ts₂ : String)
    {n m : Nat}
    (h : generate_key kc eid ts₁ n = generate_key kc eid ts₂ m) : n = m := by
  have hd := congrArg (fun s : String => s.data.reverse) h
  have hpd : ∀ k, (pad4 k).data = pad4Chars k := fun k => rfl
  have hu : "_".data = ['_'] := rfl
  simp only [generate_key, String.data_append, List.reverse_append,
    List.append_assoc, hpd, hu, List.reverse_cons, List.reverse_nil,
    List.nil_append, List.singleton_append] at hd
  have hn : '_' ∉ (pad4Chars n).reverse := fun hm =>
    pad4Chars_ne_sep (List.mem_reverse.mp hm) rfl
  have hm' : '_' ∉ (pad4Chars m).reverse := fun hmm =>
    pad4Chars_ne_sep (List.mem_reverse.mp hmm) rfl
  have hrev := append2_sep_inj '_' (".parquet".data.reverse)
    ((pad4Chars n).reverse) ((pad4Chars m).reverse) _ _ hn hm' hd
  exact pad4Chars_inj (List.reverse_injective hrev)

theorem runWriter_spec (kc : KeyConfig) (eid : String) :
    ∀ (cs : List WriteCall) (w : WriterState),
      (runWriter kc eid w cs).1.batch_counter =
        w.batch_counter + (cs.filter (fun c => !c.rows.isEmpty)).length ∧
      (∀ p ∈ okFileWrites (runWriter kc eid w cs).2,
        w.batch_counter < p.2 ∧ ∃ ts, p.1 = generate_key kc eid ts p.2) ∧
      (okFileWrites (runWriter kc eid w cs).2).Pairwise
        (fun p q => p.2 < q.2) ∧
      ((∀ c ∈ cs, c.fault = none) →
        (runWriter kc eid w cs).1.batch_counter =
          w.batch_counter + (okFileWrites (runWriter kc eid w cs).2).length) := by
  intro cs
  induction cs with
  | nil =>
    intro w
    simp [runWriter, okFileWrites]
  | cons c cs ih =>
    intro w
    obtain ⟨rows, ts, fault⟩ := c
    by_cases he : rows.isEmpty = true
    · have hwb : write_batch kc eid w rows ts fault = (.ok "", w) := by
        unfold write_batch
        rw [he]
        simp
      rcases hrw : runWriter kc eid w cs with ⟨wf, rs⟩
      have hih := ih w
      rw [hrw] at hih
      obtain ⟨ih1, ih2, ih3, ih4⟩ := hih
      simp only [runWriter, hwb, hrw, okFileWrites, List.filterMap_cons, he,
        List.filter_cons, Bool.not_true, reduceIte]
      refine ⟨ih1, ih2, ih3, ?_⟩
      intro hfall
      exact ih4 (fun c hc => hfall c (List.mem_cons_of_mem _ hc))
    · rw [Bool.not_eq_true] at he
      rcases fault with _ | me
      · have hwb : write_batch kc eid w rows ts none =
            (.ok (generate_key kc eid ts (w.batch_counter + 1)),
             ⟨w.batch_counter + 1⟩) := by
          unfold write_batch
          rw [he]
          simp
        rcases hrw : runWriter kc eid ⟨w.batch_counter + 1⟩ cs with ⟨wf, rs⟩
        have hih := ih ⟨w.batch_counter + 1⟩
        rw [hrw] at hih
        obtain ⟨ih1, ih2, ih3, ih4⟩ := hih
        have ih1' : wf.batch_counter = w.batch_counter + 1 +
            (cs.filter (fun c => !c.rows.isEmpty)).length := ih1
        simp only [runWriter, hwb, hrw, okFileWrites, List.filterMap_cons, he,
          List.filter_cons, Bool.not_false, Bool.false_eq_true, reduceIte]
        refine ⟨?_, ?_, ?_, ?_⟩
        · rw [ih1']
          simp only [List.length_cons]
          omega
        · intro p hp
          rcases List.mem_cons.mp hp with rfl | hp
          · exact ⟨by omega, ⟨ts, rfl⟩⟩
          · obtain ⟨hlt, hts⟩ := ih2 p hp
            have hlt' : w.batch_counter + 1 < p.2 := hlt
            exact ⟨by omega, hts⟩
        · refine List.Pairwise.cons ?_ ih3
          intro q hq
          have hlt : w.batch_counter + 1 < q.2 := (ih2 q hq).1
          simpa using hlt
        · intro hfall
          have h4 := ih4 (fun c hc => hfall c (List.mem_cons_of_mem _ hc))
          have h4' : wf.batch_counter = w.batch_counter + 1 +
              (okFileWrites rs).length := h4
          simp only [okFileWrites] at h4'
          simp only [get_written_files, List.length_cons, okFileWrites]
          rw [h4']
          omega
      · have hwb : write_batch kc eid w rows ts (some me) =
            (.error (.writerError ("Failed to write batch to S3: " ++ me)),
             ⟨w.batch_counter + 1⟩) := by
          unfold write_batch
          rw [he]
          simp
        rcases hrw : runWriter kc eid ⟨w.batch_counter + 1⟩ cs with ⟨wf, rs⟩
        have hih := ih ⟨w.batch_counter + 1⟩
        rw [hrw] at hih
        obtain ⟨ih1, ih2, ih3, ih4⟩ := hih
        have ih1' : wf.batch_counter = w.batch_counter + 1 +
            (cs.filter (fun c => !c.rows.isEmpty)).length := ih1
        simp only [runWriter, hwb, hrw, okFileWrites, List.filterMap_cons, he,
          List.filter_cons, Bool.not_false, Bool.false_eq_true, reduceIte]
        refine ⟨?_, ?_, ?_, ?_⟩
        · rw [ih1']
          simp only [List.length_cons]
          omega
        · intro p hp
          obtain ⟨hlt, hts⟩ := ih2 p hp
          have hlt' : w.batch_counter + 1 < p.2 := hlt
          exact ⟨by omega, hts⟩
        · exact ih3
        · intro hfall
          have := hfall ⟨rows, ts, some me⟩ (List.mem_cons_self _ _)
          simp at this

/-- C9, counterexample.  `_generate_key` increments the batch counter
before the conversion and upload (writer.py, lines 43-57, called at line
101 before the `try`), so a failed `write_batch` call still increments
it: after one failing non-empty call `get_written_files` reports 1 while
zero successful writes were performed — refuting both "increments exactly
once per successful writeBatch call" and "filesWritten returns the count
of successful writes". -/
theorem C9_counterexample :
    get_written_files (runWriter ⟨"cdc", "public", "orders"⟩ "e1" ⟨0⟩
      [⟨[[("id", 1)]], "20240115T103000", some "boom"⟩]).1 = 1 ∧
    okFileWrites (runWriter ⟨"cdc", "public", "orders"⟩ "e1" ⟨0⟩
      [⟨[[("id", 1)]], "20240115T103000", some "boom"⟩]).2 = [] := by
  decide

/-- C9, amended.  The batch counter increments exactly once per
`write_batch` call with non-empty input, whether or not the write
succeeds; the sequence numbers embedded in the keys of successful file
writes are strictly increasing and the keys never collide; and
`get_written_files` equals the count of successful file writes as long
as every call succeeded (on a failed call it overcounts). -/
theorem C9_writer_counter (kc : KeyConfig) (eid : String)
    (cs : List WriteCall) (w : WriterState) :
    (runWriter kc eid w cs).1.batch_counter =
      w.batch_counter + (cs.filter (fun c => !c.rows.isEmpty)).length ∧
    (okFileWrites (runWriter kc eid w cs).2).Pairwise
      (fun p q => p.2 < q.2) ∧
    (okFileWrites (runWriter kc eid w cs).2).Pairwise
      (fun p q => p.1 ≠ q.1) ∧
    ((∀ c ∈ cs, c.fault = none) →
      get_written_files (runWriter kc eid w cs).1 =
        w.batch_counter + (okFileWrites (runWriter kc eid w cs).2).length) := by
  obtain ⟨h1, h2, h3, h4⟩ := runWriter_spec kc eid cs w
  refine ⟨h1, h3, ?_, h4⟩
  refine List.Pairwise.imp_of_mem ?_ h3
  intro p q hp hq hlt
  obtain ⟨-, ts₁, hts₁⟩ := h2 p hp
  obtain ⟨-, ts₂, hts₂⟩ := h2 q hq
  intro hkey
  rw [hts₁, hts₂] at hkey
  have heqc := generate_key_counter_inj kc eid ts₁ ts₂ hkey
  omega

/-- C9, witness for the amended theorem: three calls (non-empty, empty,
non-empty), all succeeding, leave the counter and file count at 2. -/
theorem C9_writer_counter_witness :
    get_written_files (runWriter ⟨"cdc", "public", "orders"⟩ "e1" ⟨0⟩
      [⟨[[("id", 1)]], "20240115T103000", none⟩,
       ⟨[], "20240115T103000", none⟩,
       ⟨[[("id", 2)]], "20240115T103001", none⟩]).1 =
      0 + (okFileWrites (runWriter ⟨"cdc", "public", "orders"⟩ "e1" ⟨0⟩
        [⟨[[("id", 1)]], "20240115T103000", none⟩,
         ⟨[], "20240115T103000", none⟩,
         ⟨[[("id", 2)]], "20240115T103001", none⟩]).2).length :=
  (C9_writer_counter ⟨"cdc", "public", "orders"⟩ "e1"
    [⟨[[("id", 1)]], "20240115T103000", none⟩,
     ⟨[], "20240115T103000", none⟩,
     ⟨[[("id", 2)]], "20240115T103001", none⟩] ⟨0⟩).2.2.2 (by decide)

end CDC
